import Mathlib

/-!
Verification of the PsychSphere backend (src/main.py, src/schemas.py).

The repository is a small FastAPI service: a validated contact-form
submission ("Inquiry") is persisted to a document store and a best-effort
email notification is scheduled as a background task.  We embed the data
model, the validation constraints declared in src/schemas.py, the SMTP
configuration constants and `send_inquiry_email` of src/main.py, and the
two inquiry endpoints (`create_inquiry`, `list_inquiries`).

The `database` module (`create_document`, `get_documents`) is imported by
src/main.py but its source is not part of the repository snapshot; those
two operations are modelled from the specification (section 4.2): insert
appends one record and returns a store-assigned unique identifier rendered
as a plain string, list returns up to `limit` records.

Email syntactic validity is enforced by pydantic's `EmailStr` (an external
library); it is modelled as an abstract predicate parameter `ev`, so every
theorem holds for any choice of the syntactic-validity predicate.
-/

namespace PsychSphere

/-- The Inquiry entity of src/schemas.py.  `phone` and `source` are
`Optional[str]` in pydantic (`None` maps to `Option.none`). -/
structure Inquiry where
  name : String
  email : String
  phone : Option String
  message : String
  source : Option String
  newsletter_opt_in : Bool
deriving Repr, DecidableEq

/-- Field-level validation errors produced by the declared pydantic
constraints in src/schemas.py: `name` min_length 2, `email` EmailStr,
`message` min_length 5. -/
inductive FieldError where
  | nameTooShort
  | emailInvalid
  | messageTooShort
deriving Repr, DecidableEq

/-- The validation performed by pydantic on the `Inquiry` model of
src/schemas.py, in field declaration order.  `ev` is the abstract
syntactic email-validity predicate implemented by `EmailStr`. -/
def validateInquiry (ev : String → Bool) (i : Inquiry) : List FieldError :=
  (if i.name.length < 2 then [FieldError.nameTooShort] else []) ++
  (if ev i.email then [] else [FieldError.emailInvalid]) ++
  (if i.message.length < 5 then [FieldError.messageTooShort] else [])

/-- The process environment variables read at the top of src/main.py
(lines 68-74).  `none` means the variable is absent; `some ""` means it is
set to the empty string (falsy in Python).  `SMTP_PORT` is kept as the
already-parsed integer (src/main.py parses it with `int(...)`, default
"587"). -/
structure Env where
  smtp_host : Option String
  smtp_port : Option Nat
  smtp_user : Option String
  smtp_pass : Option String
  to_email : Option String
  owner_email : Option String
  from_name : Option String
  from_email : Option String
deriving Repr, DecidableEq

/-- Python truthiness of an optional string: `None` and `""` are falsy. -/
def truthy (o : Option String) : Bool :=
  match o with
  | none => false
  | some s => s ≠ ""

/-- Python `a or b` on optional strings (left value kept when truthy). -/
def pyOr (a b : Option String) : Option String :=
  if truthy a then a else b

/-- Python `a or d` where the right operand is a (truthy) string literal. -/
def pyOrD (a : Option String) (d : String) : String :=
  if truthy a then a.getD "" else d

-- Derived SMTP configuration constants, src/main.py lines 68-74.

def SMTP_HOST (e : Env) : Option String := e.smtp_host

def SMTP_PORT (e : Env) : Nat := e.smtp_port.getD 587

def SMTP_USER (e : Env) : Option String := e.smtp_user

def SMTP_PASS (e : Env) : Option String := e.smtp_pass

/-- `TO_EMAIL = os.getenv("TO_EMAIL") or os.getenv("OWNER_EMAIL")`. -/
def TO_EMAIL (e : Env) : Option String := pyOr e.to_email e.owner_email

/-- `FROM_NAME = os.getenv("FROM_NAME", "PsychSphere Inquiries")`. -/
def FROM_NAME (e : Env) : String := e.from_name.getD "PsychSphere Inquiries"

/-- `FROM_EMAIL = os.getenv("FROM_EMAIL") or SMTP_USER or
"no-reply@psychsphere.local"`. -/
def FROM_EMAIL (e : Env) : String :=
  pyOrD (pyOr e.from_email e.smtp_user) "no-reply@psychsphere.local"

/-- The subject line built in `send_inquiry_email` (src/main.py line 83). -/
def emailSubject (i : Inquiry) : String :=
  "New PsychSphere Inquiry from " ++ i.name

/-- The HTML body f-string of `send_inquiry_email` (src/main.py lines
85-94), with each interpolation spliced in verbatim. -/
def html_body (i : Inquiry) : String :=
  "\n    <h2>New Inquiry</h2>\n    <p><strong>Name:</strong> " ++ i.name ++
  "</p>\n    <p><strong>Email:</strong> " ++ i.email ++
  "</p>\n    <p><strong>Phone:</strong> " ++ pyOrD i.phone "-" ++
  " </p>\n    <p><strong>Newsletter:</strong> " ++
  (if i.newsletter_opt_in then "Yes" else "No") ++
  "</p>\n    <p><strong>Source:</strong> " ++ pyOrD i.source "website" ++
  "</p>\n    <hr/>\n    <p>" ++ i.message ++ "</p>\n    "

/-- The MIME message assembled in `send_inquiry_email` (src/main.py lines
96-100): subject, From (display name and address), To, and the HTML part. -/
structure EmailMsg where
  subject : String
  fromName : String
  fromAddr : String
  toAddr : String
  htmlBody : String
deriving Repr, DecidableEq

/-- The transport-level actions `send_inquiry_email` can perform on the
SMTP connection (src/main.py lines 102-109). -/
inductive SmtpAction where
  | connect (host : String) (port : Nat)
  | starttls
  | login (user pwd : String)
  | sendmail (sender : String) (rcpts : List String) (msg : EmailMsg)
deriving Repr, DecidableEq

/-- `send_inquiry_email` (src/main.py lines 77-109).  `fails` is the fault
oracle of the transport: an action `a` with `fails a = true` raises.  The
STARTTLS call sits inside `try: ... except Exception: pass`, so the oracle
is never consulted for it — its failure is swallowed and execution
continues; failures of connect, login and sendmail escape the function
(`Except.error`).  On the success path the result is the ordered list of
actions performed. -/
def send_inquiry_email (fails : SmtpAction → Bool) (e : Env) (i : Inquiry) :
    Except SmtpAction (List SmtpAction) :=
  if truthy (SMTP_HOST e) && truthy (TO_EMAIL e) then
    let host := (SMTP_HOST e).getD ""
    let toAddr := (TO_EMAIL e).getD ""
    let msg : EmailMsg :=
      { subject := emailSubject i, fromName := FROM_NAME e,
        fromAddr := FROM_EMAIL e, toAddr := toAddr, htmlBody := html_body i }
    let aConnect := SmtpAction.connect host (SMTP_PORT e)
    if fails aConnect then Except.error aConnect
    else
      let t1 : List SmtpAction := [aConnect, SmtpAction.starttls]
      let step2 : Except SmtpAction (List SmtpAction) :=
        if truthy (SMTP_USER e) && truthy (SMTP_PASS e) then
          let aLogin :=
            SmtpAction.login ((SMTP_USER e).getD "") ((SMTP_PASS e).getD "")
          if fails aLogin then Except.error aLogin
          else Except.ok (t1 ++ [aLogin])
        else Except.ok t1
      match step2 with
      | Except.error a => Except.error a
      | Except.ok t2 =>
        let aSend := SmtpAction.sendmail (FROM_EMAIL e) [toAddr] msg
        if fails aSend then Except.error aSend else Except.ok (t2 ++ [aSend])
  else Except.ok []

/-- The document store holding the "inquiry" collection: records paired
with their store-assigned numeric key, plus the next fresh key. -/
structure Store where
  inquiry : List (Nat × Inquiry)
  nextId : Nat
deriving Repr, DecidableEq

/-- Modelled from the spec: the `database` module is not in src/.  Section
4.2 requires the store-assigned identifier to be rendered as a plain text
value for transport; this is the rendering of key `n`. -/
def objectId (n : Nat) : String := "id-" ++ toString n

/-- Modelled from the spec: `database.create_document` is not in src/.
Section 4.2: `insert(inquiry) -> identifier` appends a new record to the
inquiry collection and returns a store-assigned unique identifier. -/
def create_document (s : Store) (i : Inquiry) : Store × String :=
  ({ inquiry := s.inquiry ++ [(s.nextId, i)], nextId := s.nextId + 1 },
   objectId s.nextId)

/-- Modelled from the spec: `database.get_documents` is not in src/.
Section 4.2: `list(limit)` returns up to `limit` records of the
collection. -/
def get_documents (s : Store) (limit : Nat) : List (Nat × Inquiry) :=
  s.inquiry.take limit

/-- The JSON body of a `POST /inquiries` response: success
(`status ok` with the identifier), a 422 field-level validation error, or
a 500 with the error detail. -/
inductive PostBody where
  | ok (id : String)
  | validationFailed (errs : List FieldError)
  | serverError (detail : String)
deriving Repr, DecidableEq

/-- Outcome of one `POST /inquiries` request: status code, body, resulting
store state, and whether `send_inquiry_email` was scheduled as a
background task. -/
structure PostResult where
  statusCode : Nat
  body : PostBody
  store : Store
  notificationScheduled : Bool
deriving Repr, DecidableEq

/-- The `create_inquiry` endpoint (src/main.py lines 112-121) together
with the framework validation step: FastAPI validates the body against
the `Inquiry` model and answers 422 with the field errors before the
handler runs; otherwise the handler inserts the record (a storage error —
`storageFails` — becomes HTTP 500 via `HTTPException`), schedules the
notification and answers 200. -/
def create_inquiry (ev : String → Bool) (storageFails : Bool)
    (storageErr : String) (s : Store) (i : Inquiry) : PostResult :=
  let errs := validateInquiry ev i
  if errs.isEmpty then
    if storageFails then
      { statusCode := 500, body := PostBody.serverError storageErr,
        store := s, notificationScheduled := false }
    else
      let r := create_document s i
      { statusCode := 200, body := PostBody.ok r.snd, store := r.fst,
        notificationScheduled := true }
  else
    { statusCode := 422, body := PostBody.validationFailed errs,
      store := s, notificationScheduled := false }

/-- A whole request: the response is produced by `create_inquiry`, and the
background task (`send_inquiry_email`) runs afterwards exactly when it was
scheduled.  The pair is (response, background notification outcome). -/
def handle_request (ev : String → Bool) (storageFails : Bool)
    (storageErr : String) (fails : SmtpAction → Bool) (e : Env) (s : Store)
    (i : Inquiry) : PostResult × Except SmtpAction (List SmtpAction) :=
  let r := create_inquiry ev storageFails storageErr s i
  (r, if r.notificationScheduled then send_inquiry_email fails e i
      else Except.ok [])

/-- The JSON body of a `GET /inquiries` response: the items (each record
with its identifier rendered as a string) or a 500 error detail. -/
inductive ListBody where
  | items (xs : List (String × Inquiry))
  | serverError (detail : String)
deriving Repr, DecidableEq

/-- Outcome of one `GET /inquiries` request. -/
structure ListResult where
  statusCode : Nat
  body : ListBody
deriving Repr, DecidableEq

/-- The `list_inquiries` endpoint (src/main.py lines 124-135): `limit`
defaults to 50 when absent; the stored records are fetched with
`get_documents` and every `_id` is converted to `str`; a storage error
becomes HTTP 500. -/
def list_inquiries (storageFails : Bool) (storageErr : String) (s : Store)
    (limit : Option Nat) : ListResult :=
  if storageFails then
    { statusCode := 500, body := ListBody.serverError storageErr }
  else
    { statusCode := 200,
      body := ListBody.items
        ((get_documents s (limit.getD 50)).map
          (fun r => (objectId r.fst, r.snd))) }

-- Helper lemmas shared by the claim theorems.

/-- A submission meeting all declared constraints produces no field
errors. -/
theorem validateInquiry_eq_nil (ev : String → Bool) (i : Inquiry)
    (h1 : 2 ≤ i.name.length) (h2 : ev i.email = true)
    (h3 : 5 ≤ i.message.length) : validateInquiry ev i = [] := by
  have h1n : ¬ i.name.length < 2 := by omega
  have h3n : ¬ i.message.length < 5 := by omega
  simp [validateInquiry, h1n, h3n, h2]

/-- The rendered store identifier is never the empty string. -/
theorem objectId_ne_empty (n : Nat) : objectId n ≠ "" := by
  intro h
  have h2 := congrArg String.length h
  rw [objectId, String.length_append] at h2
  have h3 : ("id-" : String).length = 3 := rfl
  have h4 : ("" : String).length = 0 := rfl
  omega

/-- Claim C1: a submission with too-short name, too-short message or an
invalid email is answered 422 with field-level errors naming exactly the
violating fields, the store is left unchanged (no persistence insert) and
no notification is scheduled. -/
theorem c1_invalid_submission_rejected (ev : String → Bool)
    (storageFails : Bool) (storageErr : String) (s : Store) (i : Inquiry)
    (h : i.name.length < 2 ∨ i.message.length < 5 ∨ ev i.email = false) :
    (create_inquiry ev storageFails storageErr s i).statusCode = 422 ∧
    (∃ errs, (create_inquiry ev storageFails storageErr s i).body =
        PostBody.validationFailed errs ∧
      (FieldError.nameTooShort ∈ errs ↔ i.name.length < 2) ∧
      (FieldError.emailInvalid ∈ errs ↔ ev i.email = false) ∧
      (FieldError.messageTooShort ∈ errs ↔ i.message.length < 5)) ∧
    (create_inquiry ev storageFails storageErr s i).store = s ∧
    (create_inquiry ev storageFails storageErr s i).notificationScheduled
      = false := by
  by_cases h1 : i.name.length < 2 <;>
    by_cases h2 : ev i.email <;>
      by_cases h3 : i.message.length < 5 <;>
        simp_all [create_inquiry, validateInquiry]

/-- Witness for C1 on the spec's own example (`"Jo"` shortened to `"J"`). -/
theorem c1_invalid_submission_rejected_witness :
    (create_inquiry (fun a => a = "jo@example.com") false "db down"
      { inquiry := [], nextId := 0 }
      { name := "J", email := "jo@example.com", phone := none,
        message := "Hello there", source := some "website",
        newsletter_opt_in := false }).statusCode = 422 :=
  (c1_invalid_submission_rejected (fun a => a = "jo@example.com") false
    "db down" { inquiry := [], nextId := 0 }
    { name := "J", email := "jo@example.com", phone := none,
      message := "Hello there", source := some "website",
      newsletter_opt_in := false } (Or.inl (by decide))).1

/-- Claim C2: a valid submission accepted by the store persists exactly
one record (the store grows by exactly that record) and is answered 200
with body `status ok` and a non-empty string identifier. -/
theorem c2_valid_submission_persisted (ev : String → Bool)
    (storageErr : String) (s : Store) (i : Inquiry)
    (h1 : 2 ≤ i.name.length) (h2 : ev i.email = true)
    (h3 : 5 ≤ i.message.length) :
    (create_inquiry ev false storageErr s i).statusCode = 200 ∧
    (create_inquiry ev false storageErr s i).body =
      PostBody.ok (objectId s.nextId) ∧
    objectId s.nextId ≠ "" ∧
    (create_inquiry ev false storageErr s i).store.inquiry =
      s.inquiry ++ [(s.nextId, i)] := by
  have hv := validateInquiry_eq_nil ev i h1 h2 h3
  refine ⟨?_, ?_, objectId_ne_empty s.nextId, ?_⟩ <;>
    simp [create_inquiry, hv, create_document]

/-- Witness for C2 on the spec's example submission. -/
theorem c2_valid_submission_persisted_witness :
    (create_inquiry (fun a => a = "jo@example.com") false "db down"
      { inquiry := [], nextId := 0 }
      { name := "Jo", email := "jo@example.com", phone := none,
        message := "Hello there", source := some "website",
        newsletter_opt_in := false }).statusCode = 200 :=
  (c2_valid_submission_persisted (fun a => a = "jo@example.com") "db down"
    { inquiry := [], nextId := 0 }
    { name := "Jo", email := "jo@example.com", phone := none,
      message := "Hello there", source := some "website",
      newsletter_opt_in := false }
    (by decide) (by decide) (by decide)).1

/-- Claim C3: when the persistence insert raises on a valid submission,
the request is answered 500 with the error message, the stored state is
unchanged, and every subsequent `GET /inquiries` listing is exactly what
it would have been before the failed request. -/
theorem c3_storage_failure_500 (ev : String → Bool) (storageErr : String)
    (s : Store) (i : Inquiry) (h1 : 2 ≤ i.name.length)
    (h2 : ev i.email = true) (h3 : 5 ≤ i.message.length) :
    (create_inquiry ev true storageErr s i).statusCode = 500 ∧
    (create_inquiry ev true storageErr s i).body =
      PostBody.serverError storageErr ∧
    (create_inquiry ev true storageErr s i).store = s ∧
    (∀ sf2 err2 limit,
      list_inquiries sf2 err2 (create_inquiry ev true storageErr s i).store
        limit = list_inquiries sf2 err2 s limit) := by
  have hv := validateInquiry_eq_nil ev i h1 h2 h3
  refine ⟨?_, ?_, ?_, ?_⟩ <;> simp [create_inquiry, hv]

/-- Witness for C3. -/
theorem c3_storage_failure_500_witness :
    (create_inquiry (fun a => a = "jo@example.com") true "mongo down"
      { inquiry := [], nextId := 0 }
      { name := "Jo", email := "jo@example.com", phone := none,
        message := "Hello there", source := some "website",
        newsletter_opt_in := false }).statusCode = 500 :=
  (c3_storage_failure_500 (fun a => a = "jo@example.com") "mongo down"
    { inquiry := [], nextId := 0 }
    { name := "Jo", email := "jo@example.com", phone := none,
      message := "Hello there", source := some "website",
      newsletter_opt_in := false }
    (by decide) (by decide) (by decide)).1

/-- Claim C4: for a valid submission that is successfully persisted, the
200 response is returned whatever the notification later does — the
response component of the request outcome is identical for any two fault
oracles and SMTP environments, so no notification exception can alter or
replace it. -/
theorem c4_response_independent_of_notification (ev : String → Bool)
    (storageErr : String) (fails1 fails2 : SmtpAction → Bool) (e1 e2 : Env)
    (s : Store) (i : Inquiry) (h1 : 2 ≤ i.name.length)
    (h2 : ev i.email = true) (h3 : 5 ≤ i.message.length) :
    (handle_request ev false storageErr fails1 e1 s i).fst.statusCode
      = 200 ∧
    (handle_request ev false storageErr fails1 e1 s i).fst =
      (handle_request ev false storageErr fails2 e2 s i).fst := by
  have hv := validateInquiry_eq_nil ev i h1 h2 h3
  constructor
  · simp [handle_request, create_inquiry, hv]
  · rfl

/-- Witness for C4: a notification oracle that fails every transport
action versus one that fails none yields the same 200 response. -/
theorem c4_response_independent_of_notification_witness :
    (handle_request (fun a => a = "jo@example.com") false "db down"
      (fun _ => true)
      { smtp_host := some "smtp.example.com", smtp_port := some 587,
        smtp_user := some "user", smtp_pass := some "pw",
        to_email := some "owner@example.com", owner_email := none,
        from_name := none, from_email := none }
      { inquiry := [], nextId := 0 }
      { name := "Jo", email := "jo@example.com", phone := none,
        message := "Hello there", source := some "website",
        newsletter_opt_in := false }).fst.statusCode = 200 :=
  (c4_response_independent_of_notification (fun a => a = "jo@example.com")
    "db down" (fun _ => true) (fun _ => false)
    { smtp_host := some "smtp.example.com", smtp_port := some 587,
      smtp_user := some "user", smtp_pass := some "pw",
      to_email := some "owner@example.com", owner_email := none,
      from_name := none, from_email := none }
    { smtp_host := none, smtp_port := none, smtp_user := none,
      smtp_pass := none, to_email := none, owner_email := none,
      from_name := none, from_email := none }
    { inquiry := [], nextId := 0 }
    { name := "Jo", email := "jo@example.com", phone := none,
      message := "Hello there", source := some "website",
      newsletter_opt_in := false }
    (by decide) (by decide) (by decide)).1

/-- Claim C5: when the SMTP host or the notification recipient is not
configured (absent or empty, i.e. falsy), `send_inquiry_email` performs no
transport action and raises no error, and a valid submission is still
answered 200 with an empty observable notification trace. -/
theorem c5_unconfigured_smtp_noop (fails : SmtpAction → Bool) (e : Env)
    (i : Inquiry)
    (h : truthy (SMTP_HOST e) = false ∨ truthy (TO_EMAIL e) = false) :
    send_inquiry_email fails e i = Except.ok [] ∧
    (∀ ev storageErr s, 2 ≤ i.name.length → ev i.email = true →
      5 ≤ i.message.length →
      (handle_request ev false storageErr fails e s i).fst.statusCode
        = 200 ∧
      (handle_request ev false storageErr fails e s i).snd
        = Except.ok []) := by
  have hsend : send_inquiry_email fails e i = Except.ok [] := by
    rcases h with h | h <;> simp [send_inquiry_email, h]
  refine ⟨hsend, fun ev storageErr s h1 h2 h3 => ?_⟩
  have hv := validateInquiry_eq_nil ev i h1 h2 h3
  constructor
  · simp [handle_request, create_inquiry, hv]
  · simp [handle_request, create_inquiry, hv, hsend]

/-- Witness for C5: host configured but no recipient. -/
theorem c5_unconfigured_smtp_noop_witness :
    send_inquiry_email (fun _ => false)
      { smtp_host := some "smtp.example.com", smtp_port := some 587,
        smtp_user := none, smtp_pass := none, to_email := none,
        owner_email := none, from_name := none, from_email := none }
      { name := "Jo", email := "jo@example.com", phone := none,
        message := "Hello there", source := some "website",
        newsletter_opt_in := false } = Except.ok [] :=
  (c5_unconfigured_smtp_noop (fun _ => false)
    { smtp_host := some "smtp.example.com", smtp_port := some 587,
      smtp_user := none, smtp_pass := none, to_email := none,
      owner_email := none, from_name := none, from_email := none }
    { name := "Jo", email := "jo@example.com", phone := none,
      message := "Hello there", source := some "website",
      newsletter_opt_in := false }
    (Or.inr (by decide))).1

/-- A fixed valid submission used by several witnesses. -/
def exampleInquiry : Inquiry :=
  { name := "Jo", email := "jo@example.com", phone := none,
    message := "Hello there", source := some "website",
    newsletter_opt_in := false }

/-- The store obtained by inserting `exampleInquiry` five times into the
empty store. -/
def store5 : Store :=
  (create_document (create_document (create_document (create_document
    (create_document { inquiry := [], nextId := 0 }
      exampleInquiry).fst exampleInquiry).fst exampleInquiry).fst
        exampleInquiry).fst exampleInquiry).fst

/-- Claim C6: `GET /inquiries` answers 500 on a storage error; otherwise
it answers 200 with the stored records, each carrying its identifier
rendered as a string, at most `limit` of them (default 50 when the
parameter is absent); with at least 5 stored records and `limit = 2`
exactly 2 items are returned. -/
theorem c6_list_inquiries_spec (storageErr : String) (s : Store)
    (limit : Option Nat) :
    list_inquiries true storageErr s limit =
      { statusCode := 500, body := ListBody.serverError storageErr } ∧
    (list_inquiries false storageErr s limit).statusCode = 200 ∧
    (∃ xs, (list_inquiries false storageErr s limit).body
        = ListBody.items xs ∧
      xs = (s.inquiry.take (limit.getD 50)).map
        (fun r => (objectId r.fst, r.snd)) ∧
      xs.length = min (limit.getD 50) s.inquiry.length ∧
      xs.length ≤ limit.getD 50) ∧
    (5 ≤ s.inquiry.length →
      ∃ ys, (list_inquiries false storageErr s (some 2)).body
          = ListBody.items ys ∧ ys.length = 2) := by
  refine ⟨rfl, rfl, ⟨_, rfl, rfl, ?_, ?_⟩, fun h5 => ⟨_, rfl, ?_⟩⟩
  · simp [get_documents, List.length_take]
  · simp [get_documents, List.length_take]
  · simp [get_documents, List.length_take]
    omega

/-- Witness for C6: after five inserts, `limit = 2` yields exactly two
items. -/
theorem c6_list_inquiries_spec_witness :
    ∃ ys, (list_inquiries false "db down" store5 (some 2)).body
        = ListBody.items ys ∧ ys.length = 2 :=
  (c6_list_inquiries_spec "db down" store5 (some 2)).2.2.2 (by decide)

/-- Claim C7: when a notification is attempted, STARTTLS is the first
action after connecting, and even when it fails (the oracle reports
failure for it) the send proceeds on the original channel: login (when
configured) and sendmail still execute, and the outcome is the same
ordered action list as with a working STARTTLS. -/
theorem c7_starttls_failure_swallowed (fails : SmtpAction → Bool) (e : Env)
    (i : Inquiry) (hhost : truthy (SMTP_HOST e) = true)
    (hto : truthy (TO_EMAIL e) = true)
    (_hst : fails SmtpAction.starttls = true)
    (hconn : ∀ h p, fails (SmtpAction.connect h p) = false)
    (hlog : ∀ u p, fails (SmtpAction.login u p) = false)
    (hsend : ∀ f r m, fails (SmtpAction.sendmail f r m) = false) :
    send_inquiry_email fails e i =
      Except.ok ([SmtpAction.connect ((SMTP_HOST e).getD "") (SMTP_PORT e),
        SmtpAction.starttls] ++
        (if truthy (SMTP_USER e) && truthy (SMTP_PASS e) then
          [SmtpAction.login ((SMTP_USER e).getD "") ((SMTP_PASS e).getD "")]
        else []) ++
        [SmtpAction.sendmail (FROM_EMAIL e) [(TO_EMAIL e).getD ""]
          { subject := emailSubject i, fromName := FROM_NAME e,
            fromAddr := FROM_EMAIL e, toAddr := (TO_EMAIL e).getD "",
            htmlBody := html_body i }]) := by
  by_cases hup : truthy (SMTP_USER e) && truthy (SMTP_PASS e) <;>
    simp [send_inquiry_email, hhost, hto, hconn, hlog, hsend, hup]

/-- Witness for C7: a concrete configuration whose oracle fails exactly
the STARTTLS action; login and sendmail still run. -/
theorem c7_starttls_failure_swallowed_witness :
    send_inquiry_email (fun a => decide (a = SmtpAction.starttls))
      { smtp_host := some "smtp.example.com", smtp_port := some 587,
        smtp_user := some "user", smtp_pass := some "pw",
        to_email := some "owner@example.com", owner_email := none,
        from_name := none, from_email := none } exampleInquiry =
      Except.ok [SmtpAction.connect "smtp.example.com" 587,
        SmtpAction.starttls, SmtpAction.login "user" "pw",
        SmtpAction.sendmail "user" ["owner@example.com"]
          { subject := emailSubject exampleInquiry,
            fromName := "PsychSphere Inquiries", fromAddr := "user",
            toAddr := "owner@example.com",
            htmlBody := html_body exampleInquiry }] := by
  have h := c7_starttls_failure_swallowed
    (fun a => decide (a = SmtpAction.starttls))
    { smtp_host := some "smtp.example.com", smtp_port := some 587,
      smtp_user := some "user", smtp_pass := some "pw",
      to_email := some "owner@example.com", owner_email := none,
      from_name := none, from_email := none } exampleInquiry
    (by decide) (by decide) (by decide) (fun h p => by simp)
    (fun u p => by simp) (fun f r m => by simp)
  simpa [SMTP_HOST, SMTP_PORT, SMTP_USER, SMTP_PASS, TO_EMAIL, FROM_NAME,
    FROM_EMAIL, pyOr, pyOrD, truthy] using h

/-- The sender fallback chain as the claim words it: the configured
FROM_EMAIL when set, else the SMTP username when set, else the fixed
default. -/
def FROM_EMAIL_claim (e : Env) : String :=
  if truthy e.from_email then e.from_email.getD ""
  else if truthy e.smtp_user then e.smtp_user.getD ""
  else "no-reply@psychsphere.local"

/-- The recipient fallback as the claim words it: TO_EMAIL when set,
otherwise OWNER_EMAIL. -/
def TO_EMAIL_claim (e : Env) : Option String :=
  if truthy e.to_email then e.to_email else e.owner_email

/-- Claim C8: the derived sender and recipient constants of src/main.py
realize exactly the claimed fallback chains (a variable set to the empty
string counts as unset, matching Python truthiness). -/
theorem c8_sender_recipient_fallbacks (e : Env) :
    FROM_EMAIL e = FROM_EMAIL_claim e ∧ TO_EMAIL e = TO_EMAIL_claim e := by
  constructor
  · by_cases h1 : truthy e.from_email <;>
      by_cases h2 : truthy e.smtp_user <;>
        simp [FROM_EMAIL, FROM_EMAIL_claim, pyOr, pyOrD, h1, h2]
  · by_cases h1 : truthy e.to_email <;>
      simp [TO_EMAIL, TO_EMAIL_claim, pyOr, h1]

/-- Claim C9: with the notification attempted and a fault-free transport,
a login action occurs in the performed action list exactly when both the
SMTP username and password are configured; in every case the send itself
still executes. -/
theorem c9_login_iff_user_and_pass (e : Env) (i : Inquiry)
    (hhost : truthy (SMTP_HOST e) = true)
    (hto : truthy (TO_EMAIL e) = true) :
    ∃ t, send_inquiry_email (fun _ => false) e i = Except.ok t ∧
      ((∃ u p, SmtpAction.login u p ∈ t) ↔
        (truthy (SMTP_USER e) = true ∧ truthy (SMTP_PASS e) = true)) ∧
      (∃ f r m, SmtpAction.sendmail f r m ∈ t) := by
  by_cases hup : truthy (SMTP_USER e) && truthy (SMTP_PASS e)
  · refine ⟨[SmtpAction.connect ((SMTP_HOST e).getD "") (SMTP_PORT e),
      SmtpAction.starttls,
      SmtpAction.login ((SMTP_USER e).getD "") ((SMTP_PASS e).getD ""),
      SmtpAction.sendmail (FROM_EMAIL e) [(TO_EMAIL e).getD ""]
        { subject := emailSubject i, fromName := FROM_NAME e,
          fromAddr := FROM_EMAIL e, toAddr := (TO_EMAIL e).getD "",
          htmlBody := html_body i }], ?_, ?_, ?_⟩
    · simp [send_inquiry_email, hhost, hto, hup]
    · rw [Bool.and_eq_true] at hup
      exact ⟨fun _ => hup,
        fun _ => ⟨(SMTP_USER e).getD "", (SMTP_PASS e).getD "", by simp⟩⟩
    · exact ⟨FROM_EMAIL e, [(TO_EMAIL e).getD ""],
        { subject := emailSubject i, fromName := FROM_NAME e,
          fromAddr := FROM_EMAIL e, toAddr := (TO_EMAIL e).getD "",
          htmlBody := html_body i }, by simp⟩
  · refine ⟨[SmtpAction.connect ((SMTP_HOST e).getD "") (SMTP_PORT e),
      SmtpAction.starttls,
      SmtpAction.sendmail (FROM_EMAIL e) [(TO_EMAIL e).getD ""]
        { subject := emailSubject i, fromName := FROM_NAME e,
          fromAddr := FROM_EMAIL e, toAddr := (TO_EMAIL e).getD "",
          htmlBody := html_body i }], ?_, ?_, ?_⟩
    · simp [send_inquiry_email, hhost, hto, hup]
    · constructor
      · rintro ⟨u, p, hmem⟩
        simp at hmem
      · rintro ⟨h1, h2⟩
        exact absurd (by simp [h1, h2]) hup
    · exact ⟨FROM_EMAIL e, [(TO_EMAIL e).getD ""],
        { subject := emailSubject i, fromName := FROM_NAME e,
          fromAddr := FROM_EMAIL e, toAddr := (TO_EMAIL e).getD "",
          htmlBody := html_body i }, by simp⟩

/-- Witness for C9: username configured but no password — no login, yet
the sendmail action is present. -/
theorem c9_login_iff_user_and_pass_witness :
    ∃ t, send_inquiry_email (fun _ => false)
      { smtp_host := some "smtp.example.com", smtp_port := some 587,
        smtp_user := some "user", smtp_pass := none,
        to_email := some "owner@example.com", owner_email := none,
        from_name := none, from_email := none } exampleInquiry
        = Except.ok t ∧
      ((∃ u p, SmtpAction.login u p ∈ t) ↔
        (truthy (SMTP_USER
          { smtp_host := some "smtp.example.com", smtp_port := some 587,
            smtp_user := some "user", smtp_pass := none,
            to_email := some "owner@example.com", owner_email := none,
            from_name := none, from_email := none }) = true ∧
         truthy (SMTP_PASS
          { smtp_host := some "smtp.example.com", smtp_port := some 587,
            smtp_user := some "user", smtp_pass := none,
            to_email := some "owner@example.com", owner_email := none,
            from_name := none, from_email := none }) = true)) ∧
      (∃ f r m, SmtpAction.sendmail f r m ∈ t) :=
  c9_login_iff_user_and_pass
    { smtp_host := some "smtp.example.com", smtp_port := some 587,
      smtp_user := some "user", smtp_pass := none,
      to_email := some "owner@example.com", owner_email := none,
      from_name := none, from_email := none } exampleInquiry
    (by decide) (by decide)

/-- Claim C10: the notification subject contains the inquiry's name, and
the HTML body contains — interpolated verbatim, with no escaping — the
name, email, phone (or a dash when absent), the newsletter flag rendered
Yes/No, the source (or "website" when absent), and the message. -/
theorem c10_email_content (i : Inquiry) :
    emailSubject i = "New PsychSphere Inquiry from " ++ i.name ∧
    (∃ p q, html_body i = p ++ i.name ++ q) ∧
    (∃ p q, html_body i = p ++ i.email ++ q) ∧
    (∃ p q, html_body i = p ++ pyOrD i.phone "-" ++ q) ∧
    (∃ p q, html_body i =
      p ++ (if i.newsletter_opt_in then "Yes" else "No") ++ q) ∧
    (∃ p q, html_body i = p ++ pyOrD i.source "website" ++ q) ∧
    (∃ p q, html_body i = p ++ i.message ++ q) := by
  refine ⟨rfl,
    ⟨"\n    <h2>New Inquiry</h2>\n    <p><strong>Name:</strong> ",
      "</p>\n    <p><strong>Email:</strong> " ++ i.email ++
      "</p>\n    <p><strong>Phone:</strong> " ++ pyOrD i.phone "-" ++
      " </p>\n    <p><strong>Newsletter:</strong> " ++
      (if i.newsletter_opt_in then "Yes" else "No") ++
      "</p>\n    <p><strong>Source:</strong> " ++ pyOrD i.source "website"
      ++ "</p>\n    <hr/>\n    <p>" ++ i.message ++ "</p>\n    ", ?_⟩,
    ⟨"\n    <h2>New Inquiry</h2>\n    <p><strong>Name:</strong> " ++
      i.name ++ "</p>\n    <p><strong>Email:</strong> ",
      "</p>\n    <p><strong>Phone:</strong> " ++ pyOrD i.phone "-" ++
      " </p>\n    <p><strong>Newsletter:</strong> " ++
      (if i.newsletter_opt_in then "Yes" else "No") ++
      "</p>\n    <p><strong>Source:</strong> " ++ pyOrD i.source "website"
      ++ "</p>\n    <hr/>\n    <p>" ++ i.message ++ "</p>\n    ", ?_⟩,
    ⟨"\n    <h2>New Inquiry</h2>\n    <p><strong>Name:</strong> " ++
      i.name ++ "</p>\n    <p><strong>Email:</strong> " ++ i.email ++
      "</p>\n    <p><strong>Phone:</strong> ",
      " </p>\n    <p><strong>Newsletter:</strong> " ++
      (if i.newsletter_opt_in then "Yes" else "No") ++
      "</p>\n    <p><strong>Source:</strong> " ++ pyOrD i.source "website"
      ++ "</p>\n    <hr/>\n    <p>" ++ i.message ++ "</p>\n    ", ?_⟩,
    ⟨"\n    <h2>New Inquiry</h2>\n    <p><strong>Name:</strong> " ++
      i.name ++ "</p>\n    <p><strong>Email:</strong> " ++ i.email ++
      "</p>\n    <p><strong>Phone:</strong> " ++ pyOrD i.phone "-" ++
      " </p>\n    <p><strong>Newsletter:</strong> ",
      "</p>\n    <p><strong>Source:</strong> " ++ pyOrD i.source "website"
      ++ "</p>\n    <hr/>\n    <p>" ++ i.message ++ "</p>\n    ", ?_⟩,
    ⟨"\n    <h2>New Inquiry</h2>\n    <p><strong>Name:</strong> " ++
      i.name ++ "</p>\n    <p><strong>Email:</strong> " ++ i.email ++
      "</p>\n    <p><strong>Phone:</strong> " ++ pyOrD i.phone "-" ++
      " </p>\n    <p><strong>Newsletter:</strong> " ++
      (if i.newsletter_opt_in then "Yes" else "No") ++
      "</p>\n    <p><strong>Source:</strong> ",
      "</p>\n    <hr/>\n    <p>" ++ i.message ++ "</p>\n    ", ?_⟩,
    ⟨"\n    <h2>New Inquiry</h2>\n    <p><strong>Name:</strong> " ++
      i.name ++ "</p>\n    <p><strong>Email:</strong> " ++ i.email ++
      "</p>\n    <p><strong>Phone:</strong> " ++ pyOrD i.phone "-" ++
      " </p>\n    <p><strong>Newsletter:</strong> " ++
      (if i.newsletter_opt_in then "Yes" else "No") ++
      "</p>\n    <p><strong>Source:</strong> " ++ pyOrD i.source "website"
      ++ "</p>\n    <hr/>\n    <p>", "</p>\n    ", ?_⟩⟩ <;>
    simp [html_body, String.append_assoc]

end PsychSphere
